import Mathlib

set_option maxHeartbeats 1000000

/-!
Shallow embedding of the StackOverflow-2017 survey cleaning notebook
("1.0 Download and clean the StackOverflow 2017 survey data.ipynb").

The notebook's dataframe cells are Python values of type `int`, `float`
(NaN included, which pandas uses as the missing-value marker) or `str`.
The cleaning functions only ever inspect the *type* of a float, never its
numeric content, so a float is modelled by its literal spelling.
-/

/-- Model of a Python cell value as it appears in the notebook's dataframe:
an integer, a float (carrying only its literal spelling, since the notebook
never inspects a float's numeric content, only its type; `pyFloat "nan"` is
the NaN missing-value marker), or a string as a list of characters. -/
inductive PyVal where
  | pyInt : Int → PyVal
  | pyFloat : String → PyVal
  | pyStr : List Char → PyVal
deriving DecidableEq

/-- Errors a notebook cell can raise in the modelled run: an I/O error from
opening or reading a missing file, the `assert` of the column-count check
failing (`AssertionError`), and the `AttributeError` Python raises when
`v.replace` is called on an `int` inside `update_multi_label_cols`. -/
inductive RunError where
  | ioError : String → RunError
  | assertionError : RunError
  | attributeError : RunError
deriving DecidableEq

/-- Embedding of the Python call `v.replace("; ", ";")`: scan left to
right, replacing each non-overlapping occurrence of the two-character
pattern `"; "` by `";"`. -/
def replaceSemiSpace : List Char → List Char
  | [] => []
  | [c] => [c]
  | c1 :: c2 :: rest =>
    if c1 = ';' ∧ c2 = ' ' then ';' :: replaceSemiSpace rest
    else c1 :: replaceSemiSpace (c2 :: rest)

/-- Embedding of the Python call `v.replace(a, b)` for a one-character
pattern `a`: every occurrence of the character `a` is replaced by `b`, all
other characters are kept. -/
def charReplace (a b : Char) (s : List Char) : List Char :=
  s.map (fun c => if c = a then b else c)

/-- Membership in Python 2's `set(string.printable)`: the ASCII codes
32 to 126 together with the whitespace controls TAB, LF, VT, FF, CR
(codes 9 to 13). -/
def string_printable (c : Char) : Bool :=
  (32 ≤ c.toNat && c.toNat ≤ 126) || (9 ≤ c.toNat && c.toNat ≤ 13)

/-- Embedding of `update_multi_label_cols` from the notebook: a float
passes through unchanged (the `isinstance(v, float)` guard); on a string
it runs `v.replace('; ', ';')`, then `v.replace(' ', '_')`, then
`v.replace(';', ' ')`; on an integer the attribute access `v.replace`
raises `AttributeError`, because the guard exempts only floats. -/
def update_multi_label_cols : PyVal → Except RunError PyVal
  | .pyFloat r => .ok (.pyFloat r)
  | .pyStr s =>
      .ok (.pyStr (charReplace ';' ' ' (charReplace ' ' '_' (replaceSemiSpace s))))
  | .pyInt _ => .error .attributeError

/-- Embedding of `convert_to_ascii` from the notebook: floats and ints
pass through unchanged (the `isinstance(v, (float, int))` guard); a string
is filtered to the characters of `string.printable`, keeping their order
(Python 2's `filter` on a `str` returns a `str`). -/
def convert_to_ascii : PyVal → PyVal
  | .pyInt n => .pyInt n
  | .pyFloat r => .pyFloat r
  | .pyStr s => .pyStr (s.filter string_printable)

/-- The notebook's column-to-bucket configuration state (cell 10): five
registration lists plus the single target column. The notebook builds it by
mutating module-level lists; the final contents are captured here as an
immutable record. -/
structure ColumnConfig where
  single_label_cols : List String
  multi_label_cols : List String
  numerical_cols : List String
  key_cols : List String
  target_col : String
deriving DecidableEq

/-- The concatenation `single_label_cols + multi_label_cols + numerical_cols
+ key_cols + [target_col]` whose length the notebook's `assert` (cell 12)
compares with the header count. -/
def allCols (cfg : ColumnConfig) : List String :=
  cfg.single_label_cols ++ cfg.multi_label_cols ++ cfg.numerical_cols ++
    cfg.key_cols ++ [cfg.target_col]

/-- Embedding of the notebook's validation (cell 12):
`assert len(single_label_cols + multi_label_cols + numerical_cols + key_cols
+ [target_col]) == len(headers)`. Returns `true` when the assert passes. -/
def checkSchema (cfg : ColumnConfig) (headers : List String) : Bool :=
  (allCols cfg).length == headers.length

/-- Number of bucket registrations a header name has: its occurrences in the
four registration lists, plus one if it is the target column. -/
def bucketCount (cfg : ColumnConfig) (h : String) : Nat :=
  cfg.single_label_cols.count h + cfg.multi_label_cols.count h +
    cfg.numerical_cols.count h + cfg.key_cols.count h +
    (if h = cfg.target_col then 1 else 0)

/-- Modelled from the spec: the spec's partition invariant for the Column
Classifier, which the source does not define as a predicate of its own —
"every column must have exactly one bucket; the union of all bucketed
columns must equal the full header set (no column unassigned, no column
double-assigned)". -/
def partitionsHeaders (cfg : ColumnConfig) (headers : List String) : Bool :=
  headers.all (fun h => bucketCount cfg h == 1) &&
    (allCols cfg).all (fun c => decide (c ∈ headers))
/-- The notebook's hard-coded column-to-bucket registration (cells 10 and 11),
in source order. -/
def soCfg : ColumnConfig where
  single_label_cols :=
    ["ProgramHobby", "Country", "University", "EmploymentStatus", "FormalEducation",
     "MajorUndergrad", "HomeRemote", "CompanySize", "CompanyType", "YearsProgram",
     "YearsCodedJob", "YearsCodedJobPast", "WebDeveloperType", "ExCoderReturn",
     "ExCoderNotForMe", "ExCoderBalance", "ExCoder10Years", "ExCoderBelonged",
     "ExCoderSkills", "ExCoderWillNotCode", "ExCoderActive", "PronounceGIF",
     "ProblemSolving", "BuildingThings", "LearningNewTech", "BoringDetails",
     "JobSecurity", "DiversityImportant", "AnnoyingUI", "FriendsDevelopers",
     "RightWrongWay", "UnderstandComputers", "SeriousWork", "InvestTimeTools",
     "WorkPayCare", "KinshipDevelopers", "ChallengeMyself", "CompetePeers", "ChangeWorld",
     "JobSeekingStatus", "LastNewJob", "AssessJobIndustry", "AssessJobRole",
     "AssessJobExp", "AssessJobDept", "AssessJobTech", "AssessJobProjects",
     "AssessJobCompensation", "AssessJobOffice", "AssessJobCommute", "AssessJobRemote",
     "AssessJobLeaders", "AssessJobProfDevel", "AssessJobDiversity", "AssessJobProduct",
     "AssessJobFinances", "ClickyKeys", "ResumePrompted", "LearnedHiring",
     "ImportantHiringAlgorithms", "ImportantHiringTechExp",
     "ImportantHiringCommunication", "ImportantHiringOpenSource", "ImportantHiringPMExp",
     "ImportantHiringCompanies", "ImportantHiringTitles", "ImportantHiringEducation",
     "ImportantHiringRep", "ImportantHiringGettingThingsDone", "Currency", "Overpaid",
     "TabsSpaces", "EducationImportant", "TimeAfterBootcamp", "WorkStart",
     "AuditoryEnvironment", "VersionControl", "CheckInCode", "ShipIt", "OtherPeoplesCode",
     "ProjectManagement", "EnjoyDebugging", "InTheZone", "DifficultCommunication",
     "CollaborateRemote", "EquipmentSatisfiedMonitors", "EquipmentSatisfiedCPU",
     "EquipmentSatisfiedRAM", "EquipmentSatisfiedStorage", "EquipmentSatisfiedRW",
     "InfluenceInternet", "InfluenceWorkstation", "InfluenceHardware", "InfluenceServers",
     "InfluenceTechStack", "InfluenceDeptTech", "InfluenceVizTools", "InfluenceDatabase",
     "InfluenceCloud", "InfluenceConsultants", "InfluenceRecruitment",
     "InfluenceCommunication", "StackOverflowDescribes", "StackOverflowFoundAnswer",
     "StackOverflowCopiedCode", "StackOverflowJobListing", "StackOverflowCompanyPage",
     "StackOverflowJobSearch", "StackOverflowNewQuestion", "StackOverflowAnswer",
     "StackOverflowMetaChat", "StackOverflowAdsRelevant", "StackOverflowAdsDistracting",
     "StackOverflowModeration", "StackOverflowCommunity", "StackOverflowHelpful",
     "StackOverflowBetter", "StackOverflowWhatDo", "StackOverflowMakeMoney", "Gender",
     "HighestEducationParents", "SurveyLong", "QuestionsInteresting",
     "QuestionsConfusing", "InterestedAnswers"]
  multi_label_cols :=
    ["DeveloperType", "MobileDeveloperType", "NonDeveloperType", "ImportantBenefits",
     "JobProfile", "EducationTypes", "SelfTaughtTypes", "CousinEducation",
     "HaveWorkedLanguage", "WantWorkLanguage", "HaveWorkedFramework", "WantWorkFramework",
     "HaveWorkedDatabase", "WantWorkDatabase", "HaveWorkedPlatform", "WantWorkPlatform",
     "IDE", "Methodology", "MetricAssess", "StackOverflowDevices", "Race"]
  numerical_cols :=
    ["CareerSatisfaction", "JobSatisfaction", "HoursPerWeek", "StackOverflowSatisfaction",
     "Salary", "ExpectedSalary"]
  key_cols := ["Respondent"]
  target_col := "Professional"

/-- Field types the schema emission loop (cell 17) can assign. -/
inductive SchemaType where
  | FLOAT : SchemaType
  | INTEGER : SchemaType
  | STRING : SchemaType
deriving DecidableEq

/-- Type assigned to one header by the schema emission loop (cell 17):
`if h in numerical_cols: 'FLOAT' elif h in key_cols: 'INTEGER' else:
'STRING'`. -/
def schemaType (cfg : ColumnConfig) (h : String) : SchemaType :=
  if h ∈ cfg.numerical_cols then .FLOAT
  else if h ∈ cfg.key_cols then .INTEGER
  else .STRING

/-- Embedding of the schema emission loop (cell 17): one `{name, type}`
entry per header, in header order. -/
def schemaOf (cfg : ColumnConfig) (headers : List String) :
    List (String × SchemaType) :=
  headers.map (fun h => (h, schemaType cfg h))

/-- Transform names the transforms emission loop (cell 18) can assign. -/
inductive Transform where
  | scale : Transform
  | key : Transform
  | target : Transform
  | bag_of_words : Transform
  | one_hot : Transform
deriving DecidableEq

/-- Transform assigned to one header by the `if/elif` chain of the
transforms emission loop (cell 18); `none` corresponds to its `else`
branch, which prints an unknown-label error. -/
def transformOf (cfg : ColumnConfig) (h : String) : Option Transform :=
  if h ∈ cfg.numerical_cols then some .scale
  else if h ∈ cfg.key_cols then some .key
  else if h = cfg.target_col then some .target
  else if h ∈ cfg.multi_label_cols then some .bag_of_words
  else if h ∈ cfg.single_label_cols then some .one_hot
  else none

/-- Embedding of the transforms emission loop (cell 18): walk the headers
in order, assigning each its transform; on an unclassified header the
`else` branch prints an error and executes `break`, so the loop stops with
the directives accumulated so far. The boolean records whether the
unknown-label branch was hit; either way the accumulated directives are
what the cell then writes to `transforms.json`. -/
def emitTransforms (cfg : ColumnConfig) : List String → List (String × Transform) × Bool
  | [] => ([], false)
  | h :: rest =>
    match transformOf cfg h with
    | some t => ((h, t) :: (emitTransforms cfg rest).1, (emitTransforms cfg rest).2)
    | none => ([], true)

/-- Cleaning applied by `cleanup_df` (cell 13) to one cell of the column
named `col`: `convert_to_ascii` when the column is `Currency` or `Race`
(matched by name in the source), then `update_multi_label_cols` when the
column is registered in `multi_label_cols`. Only the multi-label step can
raise (on an integer cell). -/
def cleanValue (cfg : ColumnConfig) (col : String) (v : PyVal) :
    Except RunError PyVal :=
  let v1 := if col = "Currency" then convert_to_ascii v else v
  let v2 := if col = "Race" then convert_to_ascii v1 else v1
  if col ∈ cfg.multi_label_cols then update_multi_label_cols v2 else .ok v2

/-- Sequential error-propagating map, as a Python loop applying a possibly
raising function to each element behaves: stop at the first raised error. -/
def mapE (f : α → Except RunError β) : List α → Except RunError (List β)
  | [] => .ok []
  | x :: xs =>
    match f x with
    | .error e => .error e
    | .ok y =>
      match mapE f xs with
      | .error e => .error e
      | .ok ys => .ok (y :: ys)

/-- Embedding of `cleanup_df` (cell 13). The source walks the columns of
the dataframe and applies the per-column cleaners via `Series.apply`; since
every cleaner is pure and cell-wise, the resulting frame is the cell-wise
image, modelled here row by row. A row is the list of its cell values in
header order. -/
def cleanup_df (cfg : ColumnConfig) (headers : List String)
    (rows : List (List PyVal)) : Except RunError (List (List PyVal)) :=
  mapE (fun r => mapE (fun p => cleanValue cfg p.1 p.2) (headers.zip r)) rows

/-- Row selection of the train/eval split (cells 14 and 15): keep, in
order, the rows whose mask entry equals `b` (`df_all[x]` and
`df_all[np.logical_not(x)]`). -/
def selectRows (rows : List (List PyVal)) (mask : List Bool) (b : Bool) :
    List (List PyVal) :=
  ((rows.zip mask).filter (fun p => p.2 == b)).map Prod.fst

/-- Input files of the run: the parsed contents of
`survey_results_public.csv` (the data rows) and of
`survey_results_schema.csv` (the column-name list its first field per row
yields, after the header row is skipped), each `none` when the file is
absent. CSV decoding itself is outside the modelled logic. -/
structure Workspace where
  survey_results : Option (List (List PyVal))
  survey_schema : Option (List String)

/-- Files the run writes on success: the two cleaned CSV partitions, the
schema artifact, the transforms artifact, and whether the unknown-label
error was printed while the transforms artifact was being accumulated. -/
structure RunOutput where
  trainRows : List (List PyVal)
  evalRows : List (List PyVal)
  schemaJson : List (String × SchemaType)
  transformsJson : List (String × Transform)
  unknownLabelPrinted : Bool
deriving DecidableEq

/-- Observable outcome of a run: whether the missing-file remediation hint
of cell 7 was printed, and either the written outputs or the error that
stopped the run before anything was written. -/
structure RunResult where
  missingHintPrinted : Bool
  outcome : Except RunError RunOutput

/-- Embedding of the notebook's top-level cell sequence. Cell 7 tests the
two input files and prints the remediation hint, without halting. Cell 8
opens the schema file (raising `IOError` when it is absent) to obtain the
header list. Cell 12 runs the column-count `assert`. Cell 13 reads the
data file (raising `IOError` when it is absent) and cleans it. Cells 14-18
split the rows by the random mask and write `train.csv`, `eval.csv`,
`schema.json` and `transforms.json`; all writes happen after every point
that can raise, so an error means nothing was written. -/
def runNotebook (cfg : ColumnConfig) (ws : Workspace) (mask : List Bool) :
    RunResult :=
  let hint := ws.survey_results.isNone || ws.survey_schema.isNone
  match ws.survey_schema with
  | none => ⟨hint, .error (.ioError "survey_results_schema.csv")⟩
  | some headers =>
    if checkSchema cfg headers then
      match ws.survey_results with
      | none => ⟨hint, .error (.ioError "survey_results_public.csv")⟩
      | some rows =>
        match cleanup_df cfg headers rows with
        | .error e => ⟨hint, .error e⟩
        | .ok cleaned =>
          ⟨hint, .ok ⟨selectRows cleaned mask true, selectRows cleaned mask false,
                      schemaOf cfg headers, (emitTransforms cfg headers).1,
                      (emitTransforms cfg headers).2⟩⟩
    else ⟨hint, .error .assertionError⟩

/-- Tiny five-column configuration with one column per bucket, used to
instantiate the general theorems on a concrete partition. -/
def cfgTiny : ColumnConfig := ⟨["S"], ["M"], ["N"], ["K"], "T"⟩

/-- Degenerate configuration registering the key column twice: together
with the headers `["K", "T", "X"]` its registration count (3) matches the
header count even though "X" is unassigned and "K" doubly assigned. -/
def cfgBad : ColumnConfig := ⟨[], [], [], ["K", "K"], "T"⟩

/-- Workspace holding an empty data file and the three headers matching
`cfgBad`'s registration count. -/
def wsBad : Workspace := ⟨some [], some ["K", "T", "X"]⟩

/-- Small configuration in the shape of the notebook's: a key, a target,
one plain single-label column and the multi-label `Race` column. -/
def cfgRace : ColumnConfig := ⟨["Gender"], ["Race"], [], ["Respondent"], "Professional"⟩

/-- Header list for `cfgRace` without the `Race` column. -/
def hdrsRace : List String := ["Respondent", "Gender"]

/-- One dataset row matching `hdrsRace`: an integer key and a string. -/
def rowRace : List PyVal := [.pyInt 1, .pyStr ['m']]

/-! Theorems. First the Text Normalizer (claims C2, C4, C5, C8). -/

theorem semi_not_mem_charReplace (u : List Char) :
    ';' ∉ charReplace ';' ' ' u := by
  intro hmem
  rcases List.mem_map.mp hmem with ⟨c, _, hc⟩
  by_cases h : c = ';'
  · simp [h] at hc
  · simp [h] at hc

theorem charReplace_space_keeps_no_semi (u : List Char) (h : ';' ∉ u) :
    ';' ∉ charReplace ' ' '_' u := by
  intro hmem
  rcases List.mem_map.mp hmem with ⟨c, hcu, hc⟩
  by_cases hcs : c = ' '
  · simp [hcs] at hc
  · simp [hcs] at hc
    exact h (hc ▸ hcu)

theorem replaceSemiSpace_id_of_no_semi (u : List Char) (h : ';' ∉ u) :
    replaceSemiSpace u = u := by
  induction u with
  | nil => rfl
  | cons c cs ih =>
    have hc : c ≠ ';' := fun hh => h (hh ▸ List.mem_cons_self c cs)
    have hcs : ';' ∉ cs := fun hh => h (List.mem_cons_of_mem c hh)
    cases cs with
    | nil => rfl
    | cons c2 rest =>
      have : ¬(c = ';' ∧ c2 = ' ') := fun hh => hc hh.1
      simp only [replaceSemiSpace, if_neg this]
      rw [ih hcs]

theorem charReplace_semi_id_of_no_semi (u : List Char) (h : ';' ∉ u) :
    charReplace ';' ' ' u = u := by
  induction u with
  | nil => rfl
  | cons c cs ih =>
    have hc : c ≠ ';' := fun hh => h (hh ▸ List.mem_cons_self c cs)
    have hcs : ';' ∉ cs := fun hh => h (List.mem_cons_of_mem c hh)
    simp only [charReplace, List.map_cons, if_neg hc]
    have := ih hcs
    simp only [charReplace] at this
    rw [this]

/-- C2: on every string value, `update_multi_label_cols` performs the three
replacements of the source in order — every occurrence of "; " becomes ";",
then every remaining space becomes "_", then every ";" becomes " " — and in
particular it maps "Stock options; Annual bonus" to
"Stock_options Annual_bonus" and "Vacation/days off; Equipment; Meals" to
"Vacation/days_off Equipment Meals". -/
theorem C2_normalize_multi_label :
    (∀ s : List Char, update_multi_label_cols (.pyStr s) =
      .ok (.pyStr (charReplace ';' ' ' (charReplace ' ' '_' (replaceSemiSpace s))))) ∧
    update_multi_label_cols (.pyStr ("Stock options; Annual bonus".toList)) =
      .ok (.pyStr ("Stock_options Annual_bonus".toList)) ∧
    update_multi_label_cols (.pyStr ("Vacation/days off; Equipment; Meals".toList)) =
      .ok (.pyStr ("Vacation/days_off Equipment Meals".toList)) :=
  ⟨fun _ => rfl, rfl, rfl⟩

/-- C4 (amended): `convert_to_ascii` is total and the identity on integer
and float values (the NaN marker included), and `update_multi_label_cols`
is the identity on float values and total on strings — but on an integer it
raises `AttributeError` instead of returning it unchanged, because its
guard exempts only floats. -/
theorem C4_numeric_passthrough_amended :
    (∀ n : Int, convert_to_ascii (.pyInt n) = .pyInt n) ∧
    (∀ r : String, convert_to_ascii (.pyFloat r) = .pyFloat r) ∧
    (∀ r : String, update_multi_label_cols (.pyFloat r) = .ok (.pyFloat r)) ∧
    (∀ s : List Char, ∃ t : List Char,
      update_multi_label_cols (.pyStr s) = .ok (.pyStr t)) ∧
    (∀ n : Int, update_multi_label_cols (.pyInt n) = .error .attributeError) :=
  ⟨fun _ => rfl, fun _ => rfl, fun _ => rfl, fun _ => ⟨_, rfl⟩, fun _ => rfl⟩

/-- C4 (counterexample): the integer 5 is not returned unchanged by
`update_multi_label_cols`; the call raises `AttributeError`. -/
theorem C4_int_raises_cex :
    update_multi_label_cols (.pyInt 5) = .error .attributeError ∧
    update_multi_label_cols (.pyInt 5) ≠ .ok (.pyInt 5) :=
  ⟨rfl, by simp [update_multi_label_cols]⟩

/-- C5 (amended): `update_multi_label_cols` is not idempotent; applied to
its own string output it replaces every space of that output by an
underscore (its output never contains a semicolon, so only the
space-to-underscore pass acts on a second application). -/
theorem C5_second_application (s t : List Char)
    (h : update_multi_label_cols (.pyStr s) = .ok (.pyStr t)) :
    update_multi_label_cols (.pyStr t) = .ok (.pyStr (charReplace ' ' '_' t)) := by
  have ht : t = charReplace ';' ' ' (charReplace ' ' '_' (replaceSemiSpace s)) := by
    have := h
    simp only [update_multi_label_cols, Except.ok.injEq, PyVal.pyStr.injEq] at this
    exact this.symm
  have hns : ';' ∉ t := ht ▸ semi_not_mem_charReplace _
  have key : update_multi_label_cols (.pyStr t) =
      .ok (.pyStr (charReplace ';' ' ' (charReplace ' ' '_' (replaceSemiSpace t)))) := rfl
  rw [key, replaceSemiSpace_id_of_no_semi t hns,
    charReplace_semi_id_of_no_semi _ (charReplace_space_keeps_no_semi t hns)]

/-- C5 (witness): the second application applied to the spec's own example
output "Stock_options Annual_bonus". -/
theorem C5_second_application_witness :
    update_multi_label_cols (.pyStr ("Stock_options Annual_bonus".toList)) =
      .ok (.pyStr (charReplace ' ' '_' ("Stock_options Annual_bonus".toList))) :=
  C5_second_application ("Stock options; Annual bonus".toList)
    ("Stock_options Annual_bonus".toList) rfl

/-- C5 (counterexample): `update_multi_label_cols` is not idempotent — on
the output "Stock_options Annual_bonus" of the spec's example a second
application yields "Stock_options_Annual_bonus", a different string. -/
theorem C5_not_idempotent_cex :
    update_multi_label_cols (.pyStr ("Stock_options Annual_bonus".toList)) =
      .ok (.pyStr ("Stock_options_Annual_bonus".toList)) ∧
    "Stock_options_Annual_bonus".toList ≠ "Stock_options Annual_bonus".toList :=
  ⟨rfl, by decide⟩

/-- C8 (amended): on every string, `convert_to_ascii` filters the string
to the characters of `string.printable` — the result is a subsequence of
the input (order preserved), it keeps every printable character with its
multiplicity and drops every non-printable one, the function is idempotent,
and it is the identity on strings made of printable characters only. -/
theorem C8_strip_non_ascii_props (s : List Char) :
    convert_to_ascii (.pyStr s) = .pyStr (s.filter string_printable) ∧
    (s.filter string_printable).Sublist s ∧
    (∀ c ∈ s.filter string_printable, string_printable c = true) ∧
    (∀ c : Char, (s.filter string_printable).count c =
      if string_printable c then s.count c else 0) ∧
    convert_to_ascii (convert_to_ascii (.pyStr s)) = convert_to_ascii (.pyStr s) ∧
    ((∀ c ∈ s, string_printable c = true) → convert_to_ascii (.pyStr s) = .pyStr s) := by
  refine ⟨rfl, List.filter_sublist s, ?_, ?_, ?_, ?_⟩
  · intro c hc
    exact (List.mem_filter.mp hc).2
  · intro c
    by_cases hp : string_printable c
    · rw [if_pos hp]
      induction s with
      | nil => rfl
      | cons a t ih =>
        by_cases hac : a = c
        · subst hac
          simp [List.filter_cons, hp, List.count_cons, ih]
        · by_cases hpa : string_printable a
          · simp [List.filter_cons, hpa, List.count_cons, ih, hac]
          · simp [List.filter_cons, hpa, List.count_cons, ih, hac]
    · rw [if_neg hp]
      rw [List.count_eq_zero]
      intro hmem
      exact hp ((List.mem_filter.mp hmem).2)
  · have : (s.filter string_printable).filter string_printable =
        s.filter string_printable :=
      List.filter_eq_self.mpr (fun a ha => (List.mem_filter.mp ha).2)
    simp only [convert_to_ascii, this]
  · intro hall
    simp only [convert_to_ascii, PyVal.pyStr.injEq]
    exact List.filter_eq_self.mpr hall

/-- C8 (witness): the amended theorem applied to the printable string
"abc", on which the filter is the identity. -/
theorem C8_strip_non_ascii_witness :
    convert_to_ascii (.pyStr ("abc".toList)) = .pyStr ("abc".toList) :=
  (C8_strip_non_ascii_props ("abc".toList)).2.2.2.2.2 (by decide)

/-- C8 (counterexample): the claim's "for an all-ASCII input it is the
identity" fails on the code — the BEL character (ASCII code 7) is ASCII
but not in `string.printable`, and `convert_to_ascii` removes it. -/
theorem C8_all_ascii_not_identity_cex :
    '\x07'.toNat < 128 ∧
    convert_to_ascii (.pyStr ['\x07']) = .pyStr [] ∧
    (.pyStr [] : PyVal) ≠ .pyStr ['\x07'] :=
  ⟨by decide, rfl, by decide⟩

/-! Column Classifier validation (claim C1). -/

theorem count_allCols (cfg : ColumnConfig) (h : String) :
    (allCols cfg).count h = bucketCount cfg h := by
  simp only [allCols, bucketCount, List.count_append, List.count_cons,
    List.count_nil, beq_iff_eq]
  by_cases ht : h = cfg.target_col
  · simp [ht]
  · simp [ht, eq_comm]

/-- C1 (amended): the notebook's validation raises exactly when the total
registration count differs from the header count — a genuine partition of a
duplicate-free header list always passes the assert, and when the assert
fails the run stops with `AssertionError` whatever the data file holds,
i.e. before any data row is read. (The counterexample shows the converse
of the first part fails: the count can match without a partition.) -/
theorem C1_count_check (cfg : ColumnConfig) (headers : List String) :
    (headers.Nodup → partitionsHeaders cfg headers = true →
      checkSchema cfg headers = true) ∧
    (∀ (results : Option (List (List PyVal))) (mask : List Bool),
      checkSchema cfg headers = false →
      (runNotebook cfg ⟨results, some headers⟩ mask).outcome =
        .error .assertionError) := by
  constructor
  · intro hnd hp
    rw [partitionsHeaders, Bool.and_eq_true] at hp
    have h1 : ∀ h ∈ headers, bucketCount cfg h = 1 := by
      intro h hh
      have := List.all_eq_true.mp hp.1 h hh
      simpa using this
    have h2 : ∀ c ∈ allCols cfg, c ∈ headers := by
      intro c hc
      have := List.all_eq_true.mp hp.2 c hc
      simpa using this
    have hperm : (allCols cfg).Perm headers := by
      rw [List.perm_iff_count]
      intro a
      by_cases ha : a ∈ headers
      · rw [count_allCols, h1 a ha, List.count_eq_one_of_mem hnd ha]
      · rw [List.count_eq_zero.mpr ha,
          List.count_eq_zero.mpr (fun hmem => ha (h2 a hmem))]
    simp [checkSchema, hperm.length_eq]
  · intro results mask hcheck
    simp [runNotebook, hcheck]

/-- C1 (witness): the first part applied to a one-column-per-bucket
partition, the second to `cfgBad`, whose registration count 3 differs from
the single header "A"; the assert stops the run although the data file is
absent. -/
theorem C1_count_check_witness :
    checkSchema cfgTiny ["K", "T", "S", "M", "N"] = true ∧
    (runNotebook cfgBad ⟨none, some ["A"]⟩ []).outcome = .error .assertionError :=
  ⟨(C1_count_check cfgTiny ["K", "T", "S", "M", "N"]).1 (by decide) (by decide),
   (C1_count_check cfgBad ["A"]).2 none [] (by decide)⟩

/-- C1 (counterexample): with the key column registered twice (`cfgBad`)
and headers ["K", "T", "X"], the count check passes (3 = 3) although header
"X" is assigned to no bucket and "K" to two — validation does not raise
whenever the configuration fails to partition the header set. -/
theorem C1_count_not_partition_cex :
    checkSchema cfgBad ["K", "T", "X"] = true ∧
    bucketCount cfgBad "X" = 0 ∧
    bucketCount cfgBad "K" = 2 ∧
    partitionsHeaders cfgBad ["K", "T", "X"] = false := by
  refine ⟨by decide, by decide, by decide, by decide⟩

/-! Artifact Emitter (claims C3, C6, C10). -/

theorem bucket_disjoint (cfg : ColumnConfig) (h : String)
    (hb : bucketCount cfg h = 1) :
    ¬(h ∈ cfg.numerical_cols ∧ h ∈ cfg.key_cols) ∧
    ¬(h ∈ cfg.numerical_cols ∧ h = cfg.target_col) ∧
    ¬(h ∈ cfg.numerical_cols ∧ h ∈ cfg.multi_label_cols) ∧
    ¬(h ∈ cfg.numerical_cols ∧ h ∈ cfg.single_label_cols) ∧
    ¬(h ∈ cfg.key_cols ∧ h = cfg.target_col) ∧
    ¬(h ∈ cfg.key_cols ∧ h ∈ cfg.multi_label_cols) ∧
    ¬(h ∈ cfg.key_cols ∧ h ∈ cfg.single_label_cols) ∧
    ¬(h = cfg.target_col ∧ h ∈ cfg.multi_label_cols) ∧
    ¬(h = cfg.target_col ∧ h ∈ cfg.single_label_cols) ∧
    ¬(h ∈ cfg.multi_label_cols ∧ h ∈ cfg.single_label_cols) := by
  unfold bucketCount at hb
  by_cases ht : h = cfg.target_col
  · rw [if_pos ht] at hb
    have n1 : h ∉ cfg.single_label_cols :=
      List.count_eq_zero.mp (by omega)
    have n2 : h ∉ cfg.multi_label_cols :=
      List.count_eq_zero.mp (by omega)
    have n3 : h ∉ cfg.numerical_cols :=
      List.count_eq_zero.mp (by omega)
    have n4 : h ∉ cfg.key_cols :=
      List.count_eq_zero.mp (by omega)
    exact ⟨fun hx => n3 hx.1, fun hx => n3 hx.1, fun hx => n3 hx.1,
      fun hx => n3 hx.1, fun hx => n4 hx.1, fun hx => n4 hx.1,
      fun hx => n4 hx.1, fun hx => n2 hx.2, fun hx => n1 hx.2,
      fun hx => n2 hx.1⟩
  · rw [if_neg ht] at hb
    refine ⟨?_, fun hx => ht hx.2, ?_, ?_, fun hx => ht hx.2, ?_, ?_,
      fun hx => ht hx.1, fun hx => ht hx.1, ?_⟩ <;>
      rintro ⟨ha, hc⟩ <;>
      have pa := List.count_pos_iff.mpr ha <;>
      have pc := List.count_pos_iff.mpr hc <;>
      omega

theorem transformOf_isSome_of_bucketCount_one (cfg : ColumnConfig)
    (h : String) (hb : bucketCount cfg h = 1) :
    (transformOf cfg h).isSome := by
  unfold transformOf
  by_cases h1 : h ∈ cfg.numerical_cols
  · rw [if_pos h1]
    rfl
  rw [if_neg h1]
  by_cases h2 : h ∈ cfg.key_cols
  · rw [if_pos h2]
    rfl
  rw [if_neg h2]
  by_cases h3 : h = cfg.target_col
  · rw [if_pos h3]
    rfl
  rw [if_neg h3]
  by_cases h4 : h ∈ cfg.multi_label_cols
  · rw [if_pos h4]
    rfl
  rw [if_neg h4]
  by_cases h5 : h ∈ cfg.single_label_cols
  · rw [if_pos h5]
    rfl
  exfalso
  unfold bucketCount at hb
  rw [if_neg h3] at hb
  have c1 := List.count_eq_zero.mpr h1
  have c2 := List.count_eq_zero.mpr h2
  have c4 := List.count_eq_zero.mpr h4
  have c5 := List.count_eq_zero.mpr h5
  omega

theorem emitTransforms_of_all_some (cfg : ColumnConfig) (headers : List String)
    (hall : ∀ h ∈ headers, (transformOf cfg h).isSome) :
    (emitTransforms cfg headers).1.map Prod.fst = headers ∧
    (emitTransforms cfg headers).2 = false ∧
    ∀ p ∈ (emitTransforms cfg headers).1, transformOf cfg p.1 = some p.2 := by
  induction headers with
  | nil => exact ⟨rfl, rfl, by simp [emitTransforms]⟩
  | cons a t ih =>
    have ha := hall a (List.mem_cons_self a t)
    obtain ⟨tr, htr⟩ := Option.isSome_iff_exists.mp ha
    have iht := ih (fun x hx => hall x (List.mem_cons_of_mem a hx))
    refine ⟨?_, ?_, ?_⟩
    · simp only [emitTransforms, htr, List.map_cons]
      rw [iht.1]
    · simp only [emitTransforms, htr]
      exact iht.2.1
    · simp only [emitTransforms, htr]
      intro p hp
      rcases List.mem_cons.mp hp with hph | hp'
      · rw [hph]
        exact htr
      · exact iht.2.2 p hp'

/-- C3: under a complete bucket assignment (every header registered in
exactly one bucket), the emission loops produce exactly one schema entry
and one transform directive per header, in header order, with the type
mapping Numerical to FLOAT, Key to INTEGER and every other bucket to
STRING, and the transform mapping Numerical to scale, Key to key, Target
to target, MultiLabelCategorical to bag_of_words and SingleLabelCategorical
to one_hot; the unknown-label branch is never hit. -/
theorem C3_emitter_complete (cfg : ColumnConfig) (headers : List String)
    (hc : ∀ h ∈ headers, bucketCount cfg h = 1) :
    (schemaOf cfg headers).map Prod.fst = headers ∧
    (emitTransforms cfg headers).1.map Prod.fst = headers ∧
    (emitTransforms cfg headers).2 = false ∧
    (∀ p ∈ schemaOf cfg headers,
      (p.1 ∈ cfg.numerical_cols → p.2 = SchemaType.FLOAT) ∧
      (p.1 ∈ cfg.key_cols → p.2 = SchemaType.INTEGER) ∧
      (p.1 = cfg.target_col ∨ p.1 ∈ cfg.single_label_cols ∨
          p.1 ∈ cfg.multi_label_cols → p.2 = SchemaType.STRING)) ∧
    (∀ p ∈ (emitTransforms cfg headers).1,
      (p.1 ∈ cfg.numerical_cols → p.2 = Transform.scale) ∧
      (p.1 ∈ cfg.key_cols → p.2 = Transform.key) ∧
      (p.1 = cfg.target_col → p.2 = Transform.target) ∧
      (p.1 ∈ cfg.multi_label_cols → p.2 = Transform.bag_of_words) ∧
      (p.1 ∈ cfg.single_label_cols → p.2 = Transform.one_hot)) := by
  have hemit := emitTransforms_of_all_some cfg headers
    (fun h hh => transformOf_isSome_of_bucketCount_one cfg h (hc h hh))
  refine ⟨?_, hemit.1, hemit.2.1, ?_, ?_⟩
  · have hid : (Prod.fst ∘ fun h => (h, schemaType cfg h)) = id := rfl
    rw [schemaOf, List.map_map, hid, List.map_id]
  · intro p hp
    rcases List.mem_map.mp hp with ⟨h, hh, hph⟩
    obtain ⟨d1, d2, d3, d4, d5, d6, d7, d8, d9, d10⟩ :=
      bucket_disjoint cfg h (hc h hh)
    subst hph
    refine ⟨?_, ?_, ?_⟩
    · intro hn
      simp [schemaType, hn]
    · intro hk
      have hn : h ∉ cfg.numerical_cols := fun hx => d1 ⟨hx, hk⟩
      simp [schemaType, hn, hk]
    · intro ho
      have hn : h ∉ cfg.numerical_cols := by
        intro hx
        rcases ho with ht | hs | hm
        · exact d2 ⟨hx, ht⟩
        · exact d4 ⟨hx, hs⟩
        · exact d3 ⟨hx, hm⟩
      have hk : h ∉ cfg.key_cols := by
        intro hx
        rcases ho with ht | hs | hm
        · exact d5 ⟨hx, ht⟩
        · exact d7 ⟨hx, hs⟩
        · exact d6 ⟨hx, hm⟩
      simp [schemaType, hn, hk]
  · intro p hp
    have hfst : p.1 ∈ headers := by
      rw [← hemit.1]
      exact List.mem_map_of_mem Prod.fst hp
    obtain ⟨d1, d2, d3, d4, d5, d6, d7, d8, d9, d10⟩ :=
      bucket_disjoint cfg p.1 (hc p.1 hfst)
    have htr := hemit.2.2 p hp
    refine ⟨?_, ?_, ?_, ?_, ?_⟩
    · intro hn
      rw [transformOf, if_pos hn] at htr
      exact (Option.some.inj htr).symm
    · intro hk
      have hn : p.1 ∉ cfg.numerical_cols := fun hx => d1 ⟨hx, hk⟩
      rw [transformOf, if_neg hn, if_pos hk] at htr
      exact (Option.some.inj htr).symm
    · intro ht
      have hn : p.1 ∉ cfg.numerical_cols := fun hx => d2 ⟨hx, ht⟩
      have hk : p.1 ∉ cfg.key_cols := fun hx => d5 ⟨hx, ht⟩
      rw [transformOf, if_neg hn, if_neg hk, if_pos ht] at htr
      exact (Option.some.inj htr).symm
    · intro hm
      have hn : p.1 ∉ cfg.numerical_cols := fun hx => d3 ⟨hx, hm⟩
      have hk : p.1 ∉ cfg.key_cols := fun hx => d6 ⟨hx, hm⟩
      have ht : ¬p.1 = cfg.target_col := fun hx => d8 ⟨hx, hm⟩
      rw [transformOf, if_neg hn, if_neg hk, if_neg ht, if_pos hm] at htr
      exact (Option.some.inj htr).symm
    · intro hs
      have hn : p.1 ∉ cfg.numerical_cols := fun hx => d4 ⟨hx, hs⟩
      have hk : p.1 ∉ cfg.key_cols := fun hx => d7 ⟨hx, hs⟩
      have ht : ¬p.1 = cfg.target_col := fun hx => d9 ⟨hx, hs⟩
      have hm : p.1 ∉ cfg.multi_label_cols := fun hx => d10 ⟨hx, hs⟩
      rw [transformOf, if_neg hn, if_neg hk, if_neg ht, if_neg hm, if_pos hs] at htr
      exact (Option.some.inj htr).symm

/-- C3 (witness): the emitter theorem applied to the one-column-per-bucket
configuration `cfgTiny` with its five headers. -/
theorem C3_emitter_complete_witness :
    (schemaOf cfgTiny ["N", "K", "T", "M", "S"]).map Prod.fst =
      ["N", "K", "T", "M", "S"] ∧
    (emitTransforms cfgTiny ["N", "K", "T", "M", "S"]).2 = false :=
  ⟨(C3_emitter_complete cfgTiny ["N", "K", "T", "M", "S"] (by decide)).1,
   (C3_emitter_complete cfgTiny ["N", "K", "T", "M", "S"] (by decide)).2.2.1⟩

/-- C6 (amended): when a header matches none of the five buckets, the
transforms loop prints the unknown-label error and stops at that header via
`break` — but the cell still writes the accumulated directives, so the
transforms artifact holds directives for exactly the headers preceding the
first unclassified one: a partial artifact is emitted rather than emission
halting without output. -/
theorem C6_break_partial_emission (cfg : ColumnConfig) (pre post : List String)
    (h : String) (hpre : ∀ x ∈ pre, (transformOf cfg x).isSome)
    (hh : transformOf cfg h = none) :
    emitTransforms cfg (pre ++ h :: post) =
      (pre.map (fun x => (x, (transformOf cfg x).getD Transform.scale)), true) := by
  induction pre with
  | nil =>
    simp only [List.nil_append, List.map_nil]
    simp [emitTransforms, hh]
  | cons a t ih =>
    have ha := hpre a (List.mem_cons_self a t)
    obtain ⟨tr, htr⟩ := Option.isSome_iff_exists.mp ha
    have iht := ih (fun x hx => hpre x (List.mem_cons_of_mem a hx))
    simp only [List.cons_append, emitTransforms, htr, List.map_cons, List.append_eq]
    rw [iht]
    rfl

/-- C6 (witness): the amended theorem applied to `cfgBad` and the headers
["K", "T", "X"], whose unclassified last header "X" leaves an artifact with
directives for "K" and "T" only. -/
theorem C6_break_partial_emission_witness :
    emitTransforms cfgBad ["K", "T", "X"] =
      ([("K", Transform.key), ("T", Transform.target)], true) :=
  (C6_break_partial_emission cfgBad ["K", "T"] [] "X" (by decide) (by decide)).trans
    (by decide)

/-- C6 (counterexample): a full run on `cfgBad` (count check passes, data
file empty) terminates normally and writes a transforms artifact holding
directives for the proper subset ["K", "T"] of the headers ["K", "T", "X"]
— a partial artifact is written instead of emission halting. -/
theorem C6_partial_artifact_written_cex :
    (runNotebook cfgBad wsBad []).outcome =
      .ok ⟨[], [], [("K", SchemaType.INTEGER), ("T", SchemaType.STRING),
        ("X", SchemaType.STRING)],
        [("K", Transform.key), ("T", Transform.target)], true⟩ ∧
    [("K", Transform.key), ("T", Transform.target)].map Prod.fst ≠
      ["K", "T", "X"] :=
  ⟨rfl, by decide⟩

theorem emitTransforms_snd_true_of_none (cfg : ColumnConfig)
    (headers : List String) (h : String) (hmem : h ∈ headers)
    (hnone : transformOf cfg h = none) :
    (emitTransforms cfg headers).2 = true := by
  induction headers with
  | nil => cases hmem
  | cons a t ih =>
    rcases List.mem_cons.mp hmem with rfl | hmem'
    · simp [emitTransforms, hnone]
    · cases hta : transformOf cfg a with
      | none => simp [emitTransforms, hta]
      | some tr =>
        simp only [emitTransforms, hta]
        exact ih hmem'

/-- C10: schema emission is total and has no completeness guard — for every
configuration and header list it yields exactly one entry per header in
header order; a header in neither `numerical_cols` nor `key_cols` receives
STRING, and in particular a header registered in no bucket at all still
receives STRING while the transforms loop (and only it) flags the
unknown-label error for that run. -/
theorem C10_schema_total_no_guard (cfg : ColumnConfig) (headers : List String) :
    (schemaOf cfg headers).map Prod.fst = headers ∧
    (∀ h ∈ headers, h ∉ cfg.numerical_cols → h ∉ cfg.key_cols →
      (h, SchemaType.STRING) ∈ schemaOf cfg headers) ∧
    (∀ h ∈ headers, bucketCount cfg h = 0 →
      (h, SchemaType.STRING) ∈ schemaOf cfg headers ∧
      (emitTransforms cfg headers).2 = true) := by
  have hfst : (schemaOf cfg headers).map Prod.fst = headers := by
    have hid : (Prod.fst ∘ fun h => (h, schemaType cfg h)) = id := rfl
    rw [schemaOf, List.map_map, hid, List.map_id]
  refine ⟨hfst, ?_, ?_⟩
  · intro h hh hn hk
    have : (h, schemaType cfg h) ∈ schemaOf cfg headers :=
      List.mem_map_of_mem (fun x => (x, schemaType cfg x)) hh
    rwa [schemaType, if_neg hn, if_neg hk] at this
  · intro h hh hb
    unfold bucketCount at hb
    have hs : h ∉ cfg.single_label_cols := List.count_eq_zero.mp (by omega)
    have hm : h ∉ cfg.multi_label_cols := List.count_eq_zero.mp (by omega)
    have hn : h ∉ cfg.numerical_cols := List.count_eq_zero.mp (by omega)
    have hk : h ∉ cfg.key_cols := List.count_eq_zero.mp (by omega)
    have ht : ¬h = cfg.target_col := by
      intro hx
      rw [if_pos hx] at hb
      omega
    have hnone : transformOf cfg h = none := by
      rw [transformOf, if_neg hn, if_neg hk, if_neg ht, if_neg hm, if_neg hs]
    constructor
    · have : (h, schemaType cfg h) ∈ schemaOf cfg headers :=
        List.mem_map_of_mem (fun x => (x, schemaType cfg x)) hh
      rwa [schemaType, if_neg hn, if_neg hk] at this
    · exact emitTransforms_snd_true_of_none cfg headers h hh hnone

/-- C10 (witness): the schema side emits a STRING entry for the header "X"
registered in no bucket, while the transforms side flags the error. -/
theorem C10_schema_total_no_guard_witness :
    (schemaOf (⟨[], [], [], [], "T"⟩ : ColumnConfig) ["X"]).map Prod.fst = ["X"] ∧
    ("X", SchemaType.STRING) ∈ schemaOf (⟨[], [], [], [], "T"⟩ : ColumnConfig) ["X"] ∧
    (emitTransforms (⟨[], [], [], [], "T"⟩ : ColumnConfig) ["X"]).2 = true :=
  ⟨(C10_schema_total_no_guard ⟨[], [], [], [], "T"⟩ ["X"]).1,
   ((C10_schema_total_no_guard ⟨[], [], [], [], "T"⟩ ["X"]).2.2 "X"
     (by decide) (by decide)).1,
   ((C10_schema_total_no_guard ⟨[], [], [], [], "T"⟩ ["X"]).2.2 "X"
     (by decide) (by decide)).2⟩

/-! Dataset Cleaner (claim C7) and top-level run (claim C9). -/

theorem mapE_ok_forall2 {α β : Type} {f : α → Except RunError β} :
    ∀ {xs : List α} {ys : List β}, mapE f xs = .ok ys →
      List.Forall₂ (fun x y => f x = .ok y) xs ys := by
  intro xs
  induction xs with
  | nil =>
    intro ys hok
    cases hok
    exact List.Forall₂.nil
  | cons x xs' ih =>
    intro ys hok
    unfold mapE at hok
    cases hfx : f x with
    | error e => rw [hfx] at hok; cases hok
    | ok y =>
      rw [hfx] at hok
      cases hrest : mapE f xs' with
      | error e => rw [hrest] at hok; cases hok
      | ok ys' =>
        rw [hrest] at hok
        cases hok
        exact List.Forall₂.cons hfx (ih hrest)

theorem mem_right_zip {α β : Type} :
    ∀ (l1 : List α) (l2 : List β) (b : β), l1.length = l2.length →
      b ∈ l2 → ∃ a, (a, b) ∈ l1.zip l2 := by
  intro l1
  induction l1 with
  | nil =>
    intro l2 b hlen hb
    cases l2 with
    | nil => cases hb
    | cons c cs => cases hlen
  | cons a t ih =>
    intro l2 b hlen hb
    cases l2 with
    | nil => cases hb
    | cons c cs =>
      rcases List.mem_cons.mp hb with rfl | hb'
      · exact ⟨a, List.mem_cons_self _ _⟩
      · obtain ⟨x, hx⟩ := ih cs b (by simpa using hlen) hb'
        exact ⟨x, List.mem_cons_of_mem _ hx⟩

theorem cleanValue_frame (cfg : ColumnConfig) (col : String) (v : PyVal)
    (h1 : col ≠ "Currency") (h2 : col ≠ "Race")
    (h3 : col ∉ cfg.multi_label_cols) :
    cleanValue cfg col v = .ok v := by
  simp [cleanValue, h1, h2, h3]

theorem cleanRow_spec (cfg : ColumnConfig) (headers : List String)
    (r cr : List PyVal)
    (hok : mapE (fun p => cleanValue cfg p.1 p.2) (headers.zip r) = .ok cr) :
    cr.length = (headers.zip r).length ∧
    ∀ p ∈ (headers.zip r).zip cr,
      p.1.1 ≠ "Currency" → p.1.1 ≠ "Race" → p.1.1 ∉ cfg.multi_label_cols →
      p.2 = p.1.2 := by
  have F := mapE_ok_forall2 hok
  obtain ⟨hlen, hrel⟩ := List.forall₂_iff_zip.mp F
  refine ⟨hlen.symm, ?_⟩
  intro p hp h1 h2 h3
  have hrel' := hrel (a := p.1) (b := p.2) (by rwa [Prod.mk.eta])
  rw [cleanValue_frame cfg p.1.1 p.1.2 h1 h2 h3] at hrel'
  exact (Except.ok.inj hrel').symm

/-- C7: when `cleanup_df` succeeds on a dataset whose rows all match the
header list, the output has the same number of rows, in the same order,
each of the same width — and every cell in a column that is neither
`Currency` nor `Race` nor registered multi-label is returned unchanged;
only the two ascii-flagged columns and the multi-label columns can be
modified. -/
theorem C7_cleaner_frame (cfg : ColumnConfig) (headers : List String)
    (rows out : List (List PyVal))
    (hshape : ∀ r ∈ rows, r.length = headers.length)
    (hok : cleanup_df cfg headers rows = .ok out) :
    out.length = rows.length ∧
    (∀ cr ∈ out, cr.length = headers.length) ∧
    (∀ q ∈ rows.zip out, ∀ p ∈ (headers.zip q.1).zip q.2,
      p.1.1 ≠ "Currency" → p.1.1 ≠ "Race" → p.1.1 ∉ cfg.multi_label_cols →
      p.2 = p.1.2) := by
  have F := mapE_ok_forall2 hok
  obtain ⟨hlen, hrel⟩ := List.forall₂_iff_zip.mp F
  refine ⟨hlen.symm, ?_, ?_⟩
  · intro cr hcr
    obtain ⟨r, hpair⟩ := mem_right_zip rows out cr hlen hcr
    have hr : r ∈ rows := (List.of_mem_zip hpair).1
    have hrel' := hrel (a := r) (b := cr) hpair
    have hspec := cleanRow_spec cfg headers r cr hrel'
    rw [hspec.1, List.length_zip, hshape r hr, Nat.min_self]
  · intro q hq
    have hrel' := hrel (a := q.1) (b := q.2) (by rwa [Prod.mk.eta])
    exact (cleanRow_spec cfg headers q.1 q.2 hrel').2

/-- C7 (witness): the frame theorem applied to `cfgRace` with a one-row
dataset; the cell of the plain single-label column "Gender" comes back
unchanged. -/
theorem C7_cleaner_frame_witness : PyVal.pyStr ['m'] = PyVal.pyStr ['m'] :=
  (C7_cleaner_frame cfgRace hdrsRace [rowRace] [rowRace] (by decide) rfl).2.2
    (rowRace, rowRace) (by decide)
    (("Gender", PyVal.pyStr ['m']), PyVal.pyStr ['m'])
    (by decide) (by decide) (by decide) (by decide)

/-- C9: when either input CSV is absent the remediation hint is printed and
the run terminates with an error — the schema read or data read raises, or
the count assert stops the run — so no output file is written (outputs
exist only on a successful outcome, and every write in the notebook comes
after every raising point). -/
theorem C9_missing_input (cfg : ColumnConfig) (ws : Workspace)
    (mask : List Bool)
    (h : ws.survey_results = none ∨ ws.survey_schema = none) :
    (runNotebook cfg ws mask).missingHintPrinted = true ∧
    ∃ e : RunError, (runNotebook cfg ws mask).outcome = .error e := by
  obtain ⟨results, schema⟩ := ws
  cases schema with
  | none =>
    refine ⟨by simp [runNotebook], ?_⟩
    exact ⟨.ioError "survey_results_schema.csv", by simp [runNotebook]⟩
  | some headers =>
    have hres : results = none := by
      rcases h with h1 | h2
      · exact h1
      · cases h2
    subst hres
    constructor
    · by_cases hch : checkSchema cfg headers
      · simp [runNotebook, hch]
      · simp [runNotebook, hch]
    · by_cases hch : checkSchema cfg headers
      · exact ⟨.ioError "survey_results_public.csv", by simp [runNotebook, hch]⟩
      · exact ⟨.assertionError, by simp [runNotebook, hch]⟩

/-- C9 (witness): the theorem applied to a workspace whose data file is
absent while the schema file holds the single header "T". -/
theorem C9_missing_input_witness :
    (runNotebook (⟨[], [], [], [], "T"⟩ : ColumnConfig) ⟨none, some ["T"]⟩ []).missingHintPrinted = true ∧
    ∃ e : RunError,
      (runNotebook (⟨[], [], [], [], "T"⟩ : ColumnConfig) ⟨none, some ["T"]⟩ []).outcome = .error e :=
  C9_missing_input ⟨[], [], [], [], "T"⟩ ⟨none, some ["T"]⟩ [] (Or.inl rfl)
